import Mathlib

/-!
Verification of the commit-lint configuration in `commitlint.config.js`.

The repository consists of a single static configuration object exported
via `module.exports`.  We embed that object shallowly: a rule value is a
triple of severity level, applicability keyword and rule parameter, and
the configuration pairs an `extends` list with an association list of
named rules, exactly as written in the source file.
-/

/-- A rule parameter in the configuration: either a string (e.g.
`'lower-case'`), a number (e.g. `50`), or a list of string tokens
(the commit-type enumeration). -/
inductive RuleParam where
  | str (s : String)
  | num (n : Nat)
  | list (l : List String)
deriving DecidableEq, Repr

/-- A single rule value `[severityLevel, applicabilityKeyword, ruleParameter]`
as it appears in the `rules` mapping of the configuration object. -/
structure Rule where
  severity : Nat
  applicability : String
  param : RuleParam
deriving DecidableEq, Repr

/-- The shape of the configuration object: an `extends` list of rule-set
identifiers and an ordered mapping from rule names to rule values. -/
structure CommitlintConfig where
  «extends» : List String
  rules : List (String × Rule)
deriving DecidableEq, Repr

/-- The configuration object exported by `commitlint.config.js`, transcribed
field by field from the source. -/
def commitlintConfig : CommitlintConfig :=
  { «extends» := ["@commitlint/config-conventional"]
  , rules :=
      [ ("type-enum",
          { severity := 2
          , applicability := "always"
          , param := RuleParam.list
              ["feat", "fix", "docs", "style", "refactor", "test", "chore"] })
      , ("subject-case",
          { severity := 2
          , applicability := "always"
          , param := RuleParam.str "lower-case" })
      , ("subject-max-length",
          { severity := 2
          , applicability := "always"
          , param := RuleParam.num 50 }) ]
  }

/-- Loading the module evaluates the static object literal; the load
function takes no meaningful input and always returns the same object. -/
def loadConfig : Unit → CommitlintConfig := fun _ => commitlintConfig

/-- Look up a rule by name in a configuration's `rules` mapping. -/
def lookupRule (c : CommitlintConfig) (name : String) : Option Rule :=
  (c.rules.find? (fun p => p.1 == name)).map Prod.snd

/-- The list-of-tokens parameter bound under `type-enum` in the exported
configuration (empty if the rule is absent or not a token list). -/
def typeEnumParam : List String :=
  match lookupRule commitlintConfig "type-enum" with
  | some r =>
      match r.param with
      | RuleParam.list l => l
      | _ => []
  | none => []

/-- C1: the `rules` mapping binds `type-enum` to a triple whose third
component, read as a set of tokens, is exactly
`{feat, fix, docs, style, refactor, test, chore}`. -/
theorem typeEnum_tokens_exact :
    lookupRule commitlintConfig "type-enum" =
      some { severity := 2, applicability := "always"
           , param := RuleParam.list typeEnumParam } ∧
    ∀ s : String, s ∈ typeEnumParam ↔
      s ∈ ["feat", "fix", "docs", "style", "refactor", "test", "chore"] := by
  refine ⟨by decide, fun s => ?_⟩
  show s ∈ ["feat", "fix", "docs", "style", "refactor", "test", "chore"] ↔ _
  exact Iff.rfl

/-- C2: the `rules` mapping binds `subject-case` to exactly the triple
`[2, 'always', 'lower-case']`. -/
theorem subjectCase_exact :
    lookupRule commitlintConfig "subject-case" =
      some { severity := 2, applicability := "always"
           , param := RuleParam.str "lower-case" } := by
  decide

/-- C3: the `rules` mapping binds `subject-max-length` to exactly the triple
`[2, 'always', 50]`; in particular its parameter is the integer `50`. -/
theorem subjectMaxLength_exact :
    lookupRule commitlintConfig "subject-max-length" =
      some { severity := 2, applicability := "always"
           , param := RuleParam.num 50 } := by
  decide

/-- C4: the `extends` field is a one-element sequence of string rule-set
identifiers, holding exactly the conventional rule-set identifier. -/
theorem extends_single_conventional :
    commitlintConfig.«extends» = ["@commitlint/config-conventional"] ∧
    commitlintConfig.«extends».length = 1 := by
  decide

/-- C5: the `rules` mapping contains exactly the three entries `type-enum`,
`subject-case` and `subject-max-length`, and binds no other rule name. -/
theorem rules_exactly_three :
    commitlintConfig.rules.map Prod.fst =
      ["type-enum", "subject-case", "subject-max-length"] := by
  decide

/-- C6: every rule bound in the `rules` mapping has a severity level from
the fixed enumeration `{0 (off), 1 (warning), 2 (error)}`. -/
theorem rules_severity_in_enumeration :
    ∀ r ∈ commitlintConfig.rules,
      r.2.severity = 0 ∨ r.2.severity = 1 ∨ r.2.severity = 2 := by
  decide

/-- Witness for C6 at the concrete entry `subject-case`. -/
theorem rules_severity_in_enumeration_witness :
    ("subject-case",
      ({ severity := 2, applicability := "always"
       , param := RuleParam.str "lower-case" } : Rule)) ∈
        commitlintConfig.rules ∧ ((2 : Nat) = 0 ∨ (2 : Nat) = 1 ∨ (2 : Nat) = 2) :=
  ⟨by decide,
   rules_severity_in_enumeration
     ("subject-case",
       { severity := 2, applicability := "always"
       , param := RuleParam.str "lower-case" })
     (by decide)⟩

/-- C7: every token in the `type-enum` enumeration is non-empty and consists
solely of lowercase letters. -/
theorem typeEnum_tokens_lowercase :
    ∀ s ∈ typeEnumParam, s ≠ "" ∧ s.data.all Char.isLower = true := by
  decide

/-- Witness for C7 at the concrete token `feat`. -/
theorem typeEnum_tokens_lowercase_witness :
    "feat" ∈ typeEnumParam ∧
      ("feat" ≠ "" ∧ "feat".data.all Char.isLower = true) :=
  ⟨by decide, typeEnum_tokens_lowercase "feat" (by decide)⟩

/-- C8: loading the configuration is idempotent — the load function is a
constant, so any two loads produce structurally identical objects. -/
theorem loadConfig_idempotent :
    ∀ u v : Unit, loadConfig u = loadConfig v := by
  intro u v
  rfl

/-- C9: the seven tokens in the `type-enum` list are pairwise distinct. -/
theorem typeEnum_tokens_nodup : typeEnumParam.Nodup := by
  decide

/-- C10: the `type-enum` parameter is an ordered list whose elements appear
in exactly the order `[feat, fix, docs, style, refactor, test, chore]`. -/
theorem typeEnum_order_exact :
    typeEnumParam =
      ["feat", "fix", "docs", "style", "refactor", "test", "chore"] := by
  decide
